import Mathlib

/-! Buffer registration and locking in `gralloc_module.cpp`.

A shallow embedding of `gralloc_register_buffer`, `gralloc_unregister_buffer`,
`gralloc_lock` and `gralloc_lock_ycbcr`, with the process-wide state
(`s_map_lock`, the module singleton and its two framebuffer mappers) passed
explicitly, and the results of the system and library calls supplied by an
`Env` record.

Conventions.
* C `int` values that are used as bit masks (`flags`, `usage`, `writeOwner`)
  are kept as their bit pattern, a `Nat`; the other `int` members are `Int`.
* Pointers are addresses, `Nat`, and `0` is the null pointer.  Pointer and
  `size_t` arithmetic is taken modulo `2 ^ ptrBits`.
* Logging macros (`AERR`, `ALOGD`, ...) have no effect on the state and are
  left out.
-/

namespace Gralloc

/-- Linux `errno.h`: the value of `EINVAL`. -/
def EINVAL : Int := 22

/-- Compile-time parameters of the translation unit: the two `#if` switches of
the source, the pointer width of the target, and the constants that the file
takes from headers which are not part of the sources (`gralloc_priv.h`,
`hardware/gralloc.h`, `system/graphics.h`, `ump.h`). -/
structure Build where
  /-- `#if GRALLOC_ARM_UMP_MODULE` -/
  GRALLOC_ARM_UMP_MODULE : Bool
  /-- `#if GRALLOC_ARM_DMA_BUF_MODULE` -/
  GRALLOC_ARM_DMA_BUF_MODULE : Bool
  /-- `#ifdef IOCTL_GET_FB_UMP_SECURE_ID` -/
  IOCTL_GET_FB_UMP_SECURE_ID : Bool
  /-- Width in bits of a pointer and of `size_t`. -/
  ptrBits : Nat
  PRIV_FLAGS_FRAMEBUFFER : Nat
  PRIV_FLAGS_USES_UMP : Nat
  PRIV_FLAGS_USES_ION : Nat
  GRALLOC_USAGE_SW_READ_MASK : Nat
  GRALLOC_USAGE_SW_WRITE_MASK : Nat
  GRALLOC_USAGE_HW_CAMERA_WRITE : Nat
  GRALLOC_USAGE_HW_CAMERA_MASK : Nat
  GRALLOC_USAGE_HW_VIDEO_ENCODER : Nat
  GRALLOC_USAGE_EXTERNAL_DISP : Nat
  HAL_PIXEL_FORMAT_YCrCb_420_SP : Int
  HAL_PIXEL_FORMAT_YCbCr_420_888 : Int
  UMP_INVALID_MEMORY_HANDLE : Int
  LOCK_STATE_MAPPED : Int
deriving DecidableEq, Repr

/-- The customary values: a 32-bit ARM build with the dma-buf (ION) backend,
the flag values of ARM's `gralloc_priv.h` and the usage and pixel-format
values of the Android headers. -/
def armBuild : Build where
  GRALLOC_ARM_UMP_MODULE := false
  GRALLOC_ARM_DMA_BUF_MODULE := true
  IOCTL_GET_FB_UMP_SECURE_ID := false
  ptrBits := 32
  PRIV_FLAGS_FRAMEBUFFER := 0x1
  PRIV_FLAGS_USES_UMP := 0x2
  PRIV_FLAGS_USES_ION := 0x4
  GRALLOC_USAGE_SW_READ_MASK := 0xF
  GRALLOC_USAGE_SW_WRITE_MASK := 0xF0
  GRALLOC_USAGE_HW_CAMERA_WRITE := 0x20000
  GRALLOC_USAGE_HW_CAMERA_MASK := 0x60000
  GRALLOC_USAGE_HW_VIDEO_ENCODER := 0x10000
  GRALLOC_USAGE_EXTERNAL_DISP := 0x2000
  HAL_PIXEL_FORMAT_YCrCb_420_SP := 0x11
  HAL_PIXEL_FORMAT_YCbCr_420_888 := 0x23
  UMP_INVALID_MEMORY_HANDLE := 0
  LOCK_STATE_MAPPED := 0x40000000

/-- The members of `private_handle_t` that `gralloc_module.cpp` reads or
writes.  `tagOk` stands for the outcome of the structural/tag check of the
handle. -/
structure private_handle_t where
  tagOk : Bool
  flags : Nat
  usage : Nat
  size : Int
  width : Int
  height : Int
  format : Int
  offset : Int
  pid : Int
  base : Nat
  lockState : Int
  writeOwner : Nat
  ump_id : Int
  ump_mem_handle : Int
  fd : Int
  share_fd : Int
deriving DecidableEq, Repr

/-- Modelled from the spec: `private_handle_t::validate`, defined in
`gralloc_priv.h`, which is not among the sources.  Spec 4.1: it rejects null
pointers and descriptors failing a structural/tag check, and has no side
effect.  A null handle is `none`. -/
def private_handle_t.validate (handle : Option private_handle_t) : Int :=
  match handle with
  | none => -EINVAL
  | some h => if h.tagOk then 0 else -EINVAL

/-- Conversion of an `int` to `size_t`. -/
def toSize (B : Build) (x : Int) : Nat := (x % 2 ^ B.ptrBits).toNat

/-- Pointer plus `size_t` offset. -/
def ptrAdd (B : Build) (p off : Nat) : Nat := (p + off) % 2 ^ B.ptrBits

/-- Pointer plus `int` offset. -/
def ptrAddInt (B : Build) (p : Nat) (off : Int) : Nat :=
  (((p : Int) + off) % 2 ^ B.ptrBits).toNat

/-! ## `gralloc_lock` -/

/-- Result of `gralloc_lock`: the return value, the descriptor afterwards, and
the value stored through `vaddr` (`none` when no store is made). -/
structure LockResult where
  ret : Int
  handle : Option private_handle_t
  stored : Option Nat
deriving DecidableEq, Repr

/-- `gralloc_lock` (lines 336-359).  The rectangle `l t w h` is not used. -/
def gralloc_lock (B : Build) (handle : Option private_handle_t) (usage : Nat)
    (_l _t _w _h : Int) : LockResult :=
  if private_handle_t.validate handle < 0 then
    { ret := -EINVAL, handle := handle, stored := none }
  else
    match handle with
    | none => { ret := -EINVAL, handle := handle, stored := none }
    | some hnd =>
      let hnd :=
        if hnd.flags &&& B.PRIV_FLAGS_USES_UMP ≠ 0 ∨ hnd.flags &&& B.PRIV_FLAGS_USES_ION ≠ 0 then
          { hnd with writeOwner := usage &&& B.GRALLOC_USAGE_SW_WRITE_MASK }
        else hnd
      if usage &&& (B.GRALLOC_USAGE_SW_READ_MASK ||| B.GRALLOC_USAGE_SW_WRITE_MASK) ≠ 0
          ∨ usage &&& B.GRALLOC_USAGE_HW_CAMERA_MASK ≠ 0
          ∨ usage &&& B.GRALLOC_USAGE_HW_VIDEO_ENCODER ≠ 0 then
        { ret := 0, handle := some hnd, stored := some hnd.base }
      else
        { ret := 0, handle := some hnd, stored := none }

/-! ## `gralloc_lock_ycbcr` -/

/-- The fields of `android_ycbcr`. -/
structure android_ycbcr where
  y : Nat
  cb : Nat
  cr : Nat
  ystride : Nat
  cstride : Nat
  chroma_step : Nat
  reserved : List Nat
deriving DecidableEq, Repr

/-- Result of `gralloc_lock_ycbcr`: the return value and the content of
`*ycbcr` afterwards (`none` when `ycbcr` is null). -/
structure YcbcrResult where
  ret : Int
  ycbcr : Option android_ycbcr
deriving DecidableEq, Repr

/-- `gralloc_lock_ycbcr` (lines 361-436).  `module` is `true` when the module
pointer is non-null; `ycbcr` is `none` for a null pointer and otherwise the
current content of the struct pointed to. -/
def gralloc_lock_ycbcr (B : Build) (module : Bool) (handle : Option private_handle_t)
    (usage : Nat) (_l _t _w _h : Int) (ycbcr : Option android_ycbcr) : YcbcrResult :=
  match ycbcr with
  | none => { ret := -EINVAL, ycbcr := none }
  | some out =>
    if !module || decide (private_handle_t.validate handle < 0) then
      { ret := -EINVAL, ycbcr := some out }
    else
      match handle with
      | none => { ret := -EINVAL, ycbcr := some out }
      | some hnd =>
        let sw_read : Bool := decide (0 ≠ usage &&& B.GRALLOC_USAGE_SW_READ_MASK)
        let hw_cam_write : Bool := decide (usage &&& B.GRALLOC_USAGE_HW_CAMERA_WRITE ≠ 0)
        let sw_read_allowed : Bool := decide (0 ≠ hnd.usage &&& B.GRALLOC_USAGE_SW_READ_MASK)
        if (!hw_cam_write && !sw_read) || (sw_read && !sw_read_allowed) then
          { ret := -EINVAL, ycbcr := some out }
        else
          let cpu_addr : Nat := hnd.base
          if hnd.format = B.HAL_PIXEL_FORMAT_YCrCb_420_SP
              ∨ hnd.format = B.HAL_PIXEL_FORMAT_YCbCr_420_888 then
            let yStride : Nat := toSize B hnd.width
            let cStride : Nat := toSize B hnd.width
            let yOffset : Nat := 0
            let vOffset : Nat := (yStride * toSize B hnd.height) % 2 ^ B.ptrBits
            let uOffset : Nat := (vOffset + 1) % 2 ^ B.ptrBits
            let cStep : Nat := 2
            { ret := 0,
              ycbcr := some
                { y := ptrAdd B cpu_addr yOffset,
                  cb := ptrAdd B cpu_addr uOffset,
                  cr := ptrAdd B cpu_addr vOffset,
                  ystride := yStride,
                  cstride := cStride,
                  chroma_step := cStep,
                  reserved := out.reserved.map (fun _ => 0) } }
          else
            { ret := -EINVAL, ycbcr := some out }

/-! ## Process-wide state and the environment -/

/-- Calls into the kernel and the UMP/ION libraries that have an effect
outside the descriptor; they are recorded in `World.trace` in program order. -/
inductive Event where
  | ump_open (ok : Bool)
  | dup (fd : Int) (ret : Int)
  | mmap (length : Nat) (fd : Int) (ret : Option Nat)
  | memset (addr : Nat) (length : Nat)
  | ioctl_get_fb_ump_secure_id (fd : Int)
  | ump_handle_create_from_secure_id (id : Int) (ret : Int)
  | ump_mapped_pointer_get (h : Int) (ret : Nat)
  | ump_mapped_pointer_release (h : Int)
  | ump_reference_release (h : Int)
  | ion_open (ret : Int)
  | munmap (addr : Nat) (length : Nat)
  | close (fd : Int)
deriving DecidableEq, Repr

/-- The members of `framebuffer_mapper_t` used by the file; `framebuffer` is
`none` for a null pointer. -/
structure framebuffer_mapper_t where
  framebuffer : Option private_handle_t
  bufferSize : Int
  numBuffers : Int
  bufferMask : Nat
deriving DecidableEq, Repr

/-- The members of `private_module_t` used by the file. -/
structure private_module_t where
  fb_primary : framebuffer_mapper_t
  fb_external : framebuffer_mapper_t
  ion_client : Int
deriving DecidableEq, Repr

/-- The state shared by all calls in a process: the module singleton
`HAL_MODULE_INFO_SYM`, the mutex `s_map_lock` (`true` when held) and
`s_ump_is_open`.  `acquired` and `released` count the completed
`pthread_mutex_lock` and `pthread_mutex_unlock` calls, and `trace` lists the
external calls made so far. -/
structure World where
  module : private_module_t
  s_map_lock : Bool
  s_ump_is_open : Bool
  acquired : Nat
  released : Nat
  trace : List Event
deriving DecidableEq, Repr

/-- What the external calls answer during one call of `register` or
`unregister`.  Each of them is made at most once per call.  `errno` is the
value read by `-errno`; `mmap = none` is `MAP_FAILED`; `ctor` holds the
members of a freshly constructed handle that are not given by the constructor
arguments. -/
structure Env where
  getpid : Int
  ump_open_ok : Bool
  hw_get_module : Int
  errno : Int
  dup : Int
  mmap : Option Nat
  fb_ump_id : Int
  ctor : private_handle_t
  ump_handle_create_from_secure_id : Int
  ump_mapped_pointer_get : Nat
  ion_open : Int
deriving DecidableEq, Repr

/-- How a call ends. `blocked`: `pthread_mutex_lock` was called on the held
mutex and the call does not return. `fault`: integer division by zero. -/
inductive Outcome where
  | returned (retval : Int)
  | blocked
  | fault
deriving DecidableEq, Repr

/-- Result of `register`/`unregister`: how the call ended, the process-wide
state and the descriptor at that point. -/
structure Res where
  out : Outcome
  world : World
  handle : Option private_handle_t
deriving DecidableEq, Repr

/-- `pthread_mutex_lock(&s_map_lock)` on the free mutex. -/
def World.lock (w : World) : World :=
  { w with s_map_lock := true, acquired := w.acquired + 1 }

/-- `pthread_mutex_unlock(&s_map_lock)`. -/
def World.unlock (w : World) : World :=
  { w with s_map_lock := false, released := w.released + 1 }

/-- Record an external call. -/
def World.emit (w : World) (e : Event) : World :=
  { w with trace := w.trace ++ [e] }

/-- Store a mapper back into the module: `fb_external` when `external`,
`fb_primary` otherwise. -/
def World.setMapper (w : World) (external : Bool) (f : framebuffer_mapper_t) : World :=
  if external then { w with module := { w.module with fb_external := f } }
  else { w with module := { w.module with fb_primary := f } }

/-- The mapper selected by `fbMaper = &(m->fb_primary)` or `&(m->fb_external)`. -/
def World.mapper (w : World) (external : Bool) : framebuffer_mapper_t :=
  if external then w.module.fb_external else w.module.fb_primary

/-- Modelled from the spec: the constructor
`private_handle_t(flags, usage, size, base, lock_state, fb_file, fb_offset)`
of `gralloc_priv.h`, which is not among the sources (spec 4.3 step 2: "create
a new shared descriptor duplicating the caller's backing reference").  The
members named by the arguments are set from them; the others are taken from
`rest`. -/
def private_handle_t.new (rest : private_handle_t) (flags usage : Nat) (size : Int)
    (base : Nat) (lock_state fb_file fb_offset : Int) : private_handle_t :=
  { rest with flags := flags, usage := usage, size := size, base := base,
              lockState := lock_state, fd := fb_file, offset := fb_offset }

/-! ## `gralloc_register_buffer` -/

/-- The label `cleanup:` (lines 235-237). -/
def cleanup (w : World) (hnd : private_handle_t) (retval : Int) : Res :=
  { out := .returned retval, world := w.unlock, handle := some hnd }

/-- The framebuffer branch of `gralloc_register_buffer` (lines 93-144). -/
def register_framebuffer (B : Build) (E : Env) (w : World) (hnd : private_handle_t)
    (retval : Int) : Res :=
  if E.hw_get_module = 0 then
    let external : Bool := decide (hnd.usage &&& B.GRALLOC_USAGE_EXTERNAL_DISP ≠ 0)
    let fbMaper := w.mapper external
    match fbMaper.framebuffer with
    | none =>
      let w := w.emit (.dup hnd.fd E.dup)
      let fb := private_handle_t.new E.ctor hnd.flags hnd.usage hnd.size hnd.base 0 E.dup 0
      let fbMaper := { fbMaper with framebuffer := some fb, bufferSize := hnd.offset }
      if fbMaper.bufferSize = 0 then
        { out := .fault, world := w.setMapper external fbMaper, handle := some hnd }
      else
        let fbMaper := { fbMaper with numBuffers := Int.tdiv fb.size fbMaper.bufferSize,
                                      bufferMask := 0 }
        let w := w.emit (.mmap (toSize B fb.size) fb.fd E.mmap)
        match E.mmap with
        | none =>
          -- line 126: `return -errno;` with `s_map_lock` still held
          { out := .returned (-E.errno), world := w.setMapper external fbMaper,
            handle := some hnd }
        | some vaddr =>
          let w := w.emit (.memset vaddr (toSize B fb.size))
          let fb := { fb with base := vaddr }
          let ioctl : Bool := B.GRALLOC_ARM_UMP_MODULE && B.IOCTL_GET_FB_UMP_SECURE_ID
          let w := if ioctl then w.emit (.ioctl_get_fb_ump_secure_id fb.fd) else w
          let fb := if ioctl then { fb with ump_id := E.fb_ump_id } else fb
          let fbMaper := { fbMaper with framebuffer := some fb }
          cleanup (w.setMapper external fbMaper) hnd retval
    | some _ => cleanup w hnd retval
  else
    cleanup w hnd (-E.errno)

/-- The UMP branch of `gralloc_register_buffer` (lines 146-178). -/
def register_ump (B : Build) (E : Env) (w : World) (hnd : private_handle_t)
    (retval : Int) : Res :=
  if B.GRALLOC_ARM_UMP_MODULE then
    let w := w.emit (.ump_handle_create_from_secure_id hnd.ump_id
      E.ump_handle_create_from_secure_id)
    let hnd := { hnd with ump_mem_handle := E.ump_handle_create_from_secure_id }
    if B.UMP_INVALID_MEMORY_HANDLE ≠ hnd.ump_mem_handle then
      let w := w.emit (.ump_mapped_pointer_get hnd.ump_mem_handle E.ump_mapped_pointer_get)
      let hnd := { hnd with base := E.ump_mapped_pointer_get }
      if 0 ≠ hnd.base then
        let hnd := { hnd with lockState := B.LOCK_STATE_MAPPED }
        let hnd := { hnd with writeOwner := 0 }
        let hnd := { hnd with lockState := 0 }
        { out := .returned 0, world := w.unlock, handle := some hnd }
      else
        cleanup (w.emit (.ump_reference_release hnd.ump_mem_handle)) hnd retval
    else
      cleanup w hnd retval
  else
    cleanup w hnd retval

/-- The ION branch of `gralloc_register_buffer` (lines 180-229). -/
def register_ion (B : Build) (E : Env) (w : World) (hnd : private_handle_t)
    (retval : Int) : Res :=
  if B.GRALLOC_ARM_DMA_BUF_MODULE then
    let size : Nat := toSize B hnd.size
    if E.hw_get_module = 0 then
      let unopened : Bool := decide (w.module.ion_client ≤ 0)
      let w := if unopened then
          { (w.emit (.ion_open E.ion_open)) with
            module := { w.module with ion_client := E.ion_open } }
        else w
      if unopened && decide (w.module.ion_client < 0) then
        cleanup w hnd (-E.errno)
      else
        let w := w.emit (.mmap size hnd.share_fd E.mmap)
        match E.mmap with
        | none => cleanup w hnd (-E.errno)
        | some mappedAddress =>
          let hnd := { hnd with base := ptrAddInt B mappedAddress hnd.offset }
          { out := .returned 0, world := w.unlock, handle := some hnd }
    else
      cleanup w hnd (-E.errno)
  else
    cleanup w hnd retval

/-- The branch on the backend flags of `gralloc_register_buffer` and the
fall-through to `cleanup:` (lines 92-237). -/
def register_dispatch (B : Build) (E : Env) (w : World) (hnd : private_handle_t)
    (retval : Int) : Res :=
  if hnd.flags &&& B.PRIV_FLAGS_FRAMEBUFFER ≠ 0 then
    register_framebuffer B E w hnd retval
  else if hnd.flags &&& B.PRIV_FLAGS_USES_UMP ≠ 0 then
    register_ump B E w hnd retval
  else if hnd.flags &&& B.PRIV_FLAGS_USES_ION ≠ 0 then
    register_ion B E w hnd retval
  else
    cleanup w hnd retval

/-- `gralloc_register_buffer` (lines 57-238). -/
def gralloc_register_buffer (B : Build) (E : Env) (w : World)
    (handle : Option private_handle_t) : Res :=
  if private_handle_t.validate handle < 0 then
    { out := .returned (-EINVAL), world := w, handle := handle }
  else
    match handle with
    | none => { out := .returned (-EINVAL), world := w, handle := handle }
    | some hnd =>
      let retval : Int := -EINVAL
      if w.s_map_lock then { out := .blocked, world := w, handle := some hnd }
      else
        let w := w.lock
        let opening : Bool := B.GRALLOC_ARM_UMP_MODULE && !w.s_ump_is_open
        if opening && !E.ump_open_ok then
          { out := .returned retval, world := (w.emit (.ump_open false)).unlock,
            handle := some hnd }
        else
          let w := if opening then { (w.emit (.ump_open true)) with s_ump_is_open := true }
                   else w
          let hnd := { hnd with pid := E.getpid }
          register_dispatch B E w hnd retval

/-! ## `gralloc_unregister_buffer` -/

/-- The backend dispatch of `gralloc_unregister_buffer` under the mutex
(lines 291-320). -/
def unregister_backend (B : Build) (w : World) (hnd : private_handle_t) :
    World × private_handle_t :=
  if hnd.flags &&& B.PRIV_FLAGS_USES_UMP ≠ 0 then
    if B.GRALLOC_ARM_UMP_MODULE then
      let w := w.emit (.ump_mapped_pointer_release hnd.ump_mem_handle)
      let w := w.emit (.ump_reference_release hnd.ump_mem_handle)
      (w, { hnd with ump_mem_handle := B.UMP_INVALID_MEMORY_HANDLE })
    else (w, hnd)
  else if hnd.flags &&& B.PRIV_FLAGS_USES_ION ≠ 0 then
    if B.GRALLOC_ARM_DMA_BUF_MODULE then
      let base : Nat := hnd.base
      let size : Nat := toSize B hnd.size
      (w.emit (.munmap base size), hnd)
    else (w, hnd)
  else (w, hnd)

/-- `gralloc_unregister_buffer` (lines 240-334). -/
def gralloc_unregister_buffer (B : Build) (E : Env) (w : World)
    (handle : Option private_handle_t) : Res :=
  if private_handle_t.validate handle < 0 then
    { out := .returned (-EINVAL), world := w, handle := handle }
  else
    match handle with
    | none => { out := .returned (-EINVAL), world := w, handle := handle }
    | some hnd =>
      if hnd.flags &&& B.PRIV_FLAGS_FRAMEBUFFER ≠ 0 then
        if w.s_map_lock then { out := .blocked, world := w, handle := some hnd }
        else
          let w := w.lock
          if E.hw_get_module = 0 then
            let external : Bool := decide (hnd.usage &&& B.GRALLOC_USAGE_EXTERNAL_DISP ≠ 0)
            let fbMaper := w.mapper external
            match fbMaper.framebuffer with
            | some fb =>
              let w := w.emit (.munmap fb.base (toSize B fb.size))
              let w := w.emit (.close fb.fd)
              let fbMaper := { fbMaper with framebuffer := none, bufferMask := 0,
                                            numBuffers := 0 }
              -- the branch has no `pthread_mutex_unlock`
              { out := .returned 0, world := w.setMapper external fbMaper, handle := some hnd }
            | none => { out := .returned 0, world := w, handle := some hnd }
          else
            { out := .returned 0, world := w, handle := some hnd }
      else if hnd.pid = E.getpid then
        if w.s_map_lock then { out := .blocked, world := w, handle := some hnd }
        else
          let w := w.lock
          let wh := unregister_backend B w hnd
          let w := wh.1
          let hnd := wh.2
          let hnd := { hnd with base := 0 }
          let hnd := { hnd with lockState := 0 }
          let hnd := { hnd with writeOwner := 0 }
          { out := .returned 0, world := w.unlock, handle := some hnd }
      else
        { out := .returned 0, world := w, handle := some hnd }

/-- `register` followed, when it returns, by `unregister` on the same
descriptor; when `register` does not return, the sequence stops there. -/
def register_then_unregister (B : Build) (E₁ E₂ : Env) (w : World)
    (handle : Option private_handle_t) : Res :=
  let r := gralloc_register_buffer B E₁ w handle
  match r.out with
  | .returned _ => gralloc_unregister_buffer B E₂ r.world r.handle
  | _ => r

/-- The result `r` is a return through one `pthread_mutex_unlock`, with the
descriptor still valid and its flags and pid as in `hnd`. -/
def Res.unlockedReturn (r : Res) (w : World) (hnd : private_handle_t) : Prop :=
  ∃ h' rv, r.handle = some h' ∧ r.out = .returned rv
    ∧ h'.tagOk = hnd.tagOk ∧ h'.flags = hnd.flags ∧ h'.pid = hnd.pid
    ∧ r.world.s_map_lock = false ∧ r.world.acquired = w.acquired
    ∧ r.world.released = w.released + 1

/-! ## Concrete inputs -/

/-- A valid, unmapped ION descriptor. -/
def unmappedHandle : private_handle_t :=
  { tagOk := true, flags := armBuild.PRIV_FLAGS_USES_ION, usage := 0, size := 4096,
    width := 0, height := 0, format := 0, offset := 0, pid := 100, base := 0,
    lockState := 0, writeOwner := 0, ump_id := 0, ump_mem_handle := 0, fd := -1,
    share_fd := 7 }

/-- A mapped 640x480 NV21 descriptor that allows software reads. -/
def nv21Handle : private_handle_t :=
  { tagOk := true, flags := armBuild.PRIV_FLAGS_USES_ION, usage := 0x3, size := 460800,
    width := 640, height := 480, format := armBuild.HAL_PIXEL_FORMAT_YCrCb_420_SP,
    offset := 0, pid := 100, base := 0x40000000, lockState := 0, writeOwner := 0,
    ump_id := 0, ump_mem_handle := 0, fd := -1, share_fd := 7 }

/-- An output struct with arbitrary previous content. -/
def staleYcbcr : android_ycbcr :=
  { y := 1, cb := 2, cr := 3, ystride := 4, cstride := 5, chroma_step := 6,
    reserved := [9, 9, 9, 9, 9, 9, 9, 9] }

/-- A descriptor in a supported format whose own usage has no software-read
bit. -/
def cameraOnlyHandle : private_handle_t :=
  { nv21Handle with usage := armBuild.GRALLOC_USAGE_HW_CAMERA_WRITE }

/-- A module with no framebuffer mapped and no ION client, the mutex free. -/
def freshWorld : World :=
  { module := { fb_primary := { framebuffer := none, bufferSize := 0, numBuffers := 0,
                                bufferMask := 0 },
                fb_external := { framebuffer := none, bufferSize := 0, numBuffers := 0,
                                 bufferMask := 0 },
                ion_client := 0 },
    s_map_lock := false, s_ump_is_open := false, acquired := 0, released := 0, trace := [] }

/-- The shared descriptor of a mapped primary framebuffer: three frames of
4096 bytes at address 0x50000000. -/
def fbShared : private_handle_t :=
  { tagOk := true, flags := armBuild.PRIV_FLAGS_FRAMEBUFFER, usage := 0, size := 12288,
    width := 0, height := 0, format := 0, offset := 0, pid := 100, base := 0x50000000,
    lockState := 0, writeOwner := 0, ump_id := 0, ump_mem_handle := 0, fd := 9,
    share_fd := -1 }

/-- The state of `freshWorld` once the primary framebuffer is mapped. -/
def fbMappedWorld : World :=
  { freshWorld with
    module := { freshWorld.module with
      fb_primary := { framebuffer := some fbShared, bufferSize := 4096, numBuffers := 3,
                      bufferMask := 0 } } }

/-- A framebuffer-flagged descriptor for the primary output, recorded as owned
by process 100. -/
def fbHandle : private_handle_t :=
  { tagOk := true, flags := armBuild.PRIV_FLAGS_FRAMEBUFFER, usage := 0, size := 12288,
    width := 0, height := 0, format := 0, offset := 4096, pid := 100, base := 0,
    lockState := 0, writeOwner := 0, ump_id := 0, ump_mem_handle := 0, fd := 8,
    share_fd := -1 }

/-- An environment in which every external call succeeds; the caller is
process 100 and `mmap` answers 0x40000000. -/
def okEnv : Env :=
  { getpid := 100, ump_open_ok := true, hw_get_module := 0, errno := 0, dup := 9,
    mmap := some 0x40000000, fb_ump_id := 0, ctor := fbShared,
    ump_handle_create_from_secure_id := 1, ump_mapped_pointer_get := 0x60000000,
    ion_open := 5 }

/-- An unmapped ION descriptor of 8192 bytes with byte offset 4096. -/
def ionOffsetHandle : private_handle_t :=
  { unmappedHandle with size := 8192, offset := 4096 }

/-! ## Auxiliary facts -/

theorem lor_eq_zero_iff (a b : Nat) : a ||| b = 0 ↔ a = 0 ∧ b = 0 := by
  constructor
  · intro h
    have key : ∀ i, (a.testBit i || b.testBit i) = false := by
      intro i
      rw [← Nat.testBit_or, h, Nat.zero_testBit]
    constructor
    · apply Nat.eq_of_testBit_eq
      intro i
      have := key i
      simp only [Bool.or_eq_false_iff] at this
      simp [this.1]
    · apply Nat.eq_of_testBit_eq
      intro i
      have := key i
      simp only [Bool.or_eq_false_iff] at this
      simp [this.2]
  · rintro ⟨rfl, rfl⟩
    rfl

theorem land_lor_ne_zero (x a b : Nat) :
    x &&& (a ||| b) ≠ 0 ↔ x &&& a ≠ 0 ∨ x &&& b ≠ 0 := by
  rw [Nat.and_or_distrib_left, Ne, lor_eq_zero_iff]
  tauto

theorem validate_some (hnd : private_handle_t) :
    private_handle_t.validate (some hnd) = 0 ↔ hnd.tagOk = true := by
  unfold private_handle_t.validate
  by_cases h : hnd.tagOk = true <;> simp [h, EINVAL]

theorem toSize_of_nonneg (B : Build) (x : Int) (h0 : 0 ≤ x) (h1 : x < 2 ^ B.ptrBits) :
    toSize B x = x.toNat := by
  unfold toSize
  rw [Int.emod_eq_of_lt h0 h1]

/-! ## `gralloc_lock` -/

/-- C5: for a valid descriptor and any usage mask, `gralloc_lock` stores
through `vaddr` exactly when the mask meets the software-read mask, the
software-write mask, the hardware-camera mask or the video-encoder bit; with
none of these bits nothing is stored, and with a software-read bit the value
stored is the descriptor's base pointer. -/
theorem gralloc_lock_stores_iff (B : Build) (hnd : private_handle_t) (usage : Nat)
    (l t w h : Int) (hvalid : private_handle_t.validate (some hnd) = 0) :
    ((gralloc_lock B (some hnd) usage l t w h).stored.isSome = true ↔
        (usage &&& B.GRALLOC_USAGE_SW_READ_MASK ≠ 0
          ∨ usage &&& B.GRALLOC_USAGE_SW_WRITE_MASK ≠ 0
          ∨ usage &&& B.GRALLOC_USAGE_HW_CAMERA_MASK ≠ 0
          ∨ usage &&& B.GRALLOC_USAGE_HW_VIDEO_ENCODER ≠ 0))
    ∧ (usage &&& B.GRALLOC_USAGE_SW_READ_MASK = 0
        → usage &&& B.GRALLOC_USAGE_SW_WRITE_MASK = 0
        → usage &&& B.GRALLOC_USAGE_HW_CAMERA_MASK = 0
        → usage &&& B.GRALLOC_USAGE_HW_VIDEO_ENCODER = 0
        → (gralloc_lock B (some hnd) usage l t w h).stored = none)
    ∧ (usage &&& B.GRALLOC_USAGE_SW_READ_MASK ≠ 0
        → (gralloc_lock B (some hnd) usage l t w h).stored = some hnd.base)
    ∧ (gralloc_lock B (some hnd) usage l t w h).ret = 0 := by
  have hlt : ¬ private_handle_t.validate (some hnd) < 0 := by rw [hvalid]; decide
  have hcond := land_lor_ne_zero usage B.GRALLOC_USAGE_SW_READ_MASK B.GRALLOC_USAGE_SW_WRITE_MASK
  unfold gralloc_lock
  rw [if_neg hlt]
  refine ⟨?_, ?_, ?_, ?_⟩
  · simp only []
    split_ifs with h1 h2 h2
    all_goals simp only [Option.isSome_some, Option.isSome_none]
    all_goals tauto
  · intro a b c d
    have hn : ¬ (usage &&& (B.GRALLOC_USAGE_SW_READ_MASK ||| B.GRALLOC_USAGE_SW_WRITE_MASK) ≠ 0
          ∨ usage &&& B.GRALLOC_USAGE_HW_CAMERA_MASK ≠ 0
          ∨ usage &&& B.GRALLOC_USAGE_HW_VIDEO_ENCODER ≠ 0) := by
      rw [hcond]; tauto
    simp only []
    rw [if_neg hn]
  · intro a
    have hy : (usage &&& (B.GRALLOC_USAGE_SW_READ_MASK ||| B.GRALLOC_USAGE_SW_WRITE_MASK) ≠ 0
          ∨ usage &&& B.GRALLOC_USAGE_HW_CAMERA_MASK ≠ 0
          ∨ usage &&& B.GRALLOC_USAGE_HW_VIDEO_ENCODER ≠ 0) := by
      rw [hcond]; tauto
    simp only []
    rw [if_pos hy]
    split_ifs <;> rfl
  · simp only []
    split_ifs <;> rfl

/-- C6, counterexample: on a valid descriptor whose base pointer is null,
`gralloc_lock` with a software-read usage returns 0 (success) and stores the
null pointer through `vaddr`. -/
theorem gralloc_lock_unmapped_succeeds :
    private_handle_t.validate (some unmappedHandle) = 0
    ∧ unmappedHandle.base = 0
    ∧ (gralloc_lock armBuild (some unmappedHandle) 0x3 0 0 0 0).ret = 0
    ∧ (gralloc_lock armBuild (some unmappedHandle) 0x3 0 0 0 0).stored = some 0 := by
  decide

/-- C6, amended: on an invalid descriptor `gralloc_lock` returns `-EINVAL`
(non-zero), stores nothing and leaves the descriptor alone; on a valid
descriptor whose base pointer is null it returns 0 and stores the null pointer
when the usage meets the software-read, software-write, camera or
video-encoder bits, and nothing otherwise. -/
theorem gralloc_lock_invalid_or_unmapped (B : Build) (handle : Option private_handle_t)
    (usage : Nat) (l t w h : Int)
    (hpre : private_handle_t.validate handle < 0
      ∨ ∃ hnd, handle = some hnd ∧ hnd.base = 0) :
    (gralloc_lock B handle usage l t w h).ret
        = (if private_handle_t.validate handle < 0 then -EINVAL else 0)
    ∧ -EINVAL ≠ 0
    ∧ (gralloc_lock B handle usage l t w h).stored
        = (if private_handle_t.validate handle < 0 then none
           else if usage &&& B.GRALLOC_USAGE_SW_READ_MASK ≠ 0
              ∨ usage &&& B.GRALLOC_USAGE_SW_WRITE_MASK ≠ 0
              ∨ usage &&& B.GRALLOC_USAGE_HW_CAMERA_MASK ≠ 0
              ∨ usage &&& B.GRALLOC_USAGE_HW_VIDEO_ENCODER ≠ 0 then some 0
           else none)
    ∧ (private_handle_t.validate handle < 0
        → (gralloc_lock B handle usage l t w h).handle = handle) := by
  have hcond := land_lor_ne_zero usage B.GRALLOC_USAGE_SW_READ_MASK B.GRALLOC_USAGE_SW_WRITE_MASK
  by_cases hv : private_handle_t.validate handle < 0
  · unfold gralloc_lock
    simp only [if_pos hv]
    exact ⟨trivial, by decide, trivial, fun _ => trivial⟩
  · rcases hpre with hpre | ⟨hnd, rfl, hb⟩
    · exact absurd hpre hv
    · unfold gralloc_lock
      simp only [if_neg hv]
      refine ⟨?_, by decide, ?_, fun hc => absurd hc hv⟩
      · split_ifs <;> rfl
      · by_cases hc : usage &&& (B.GRALLOC_USAGE_SW_READ_MASK ||| B.GRALLOC_USAGE_SW_WRITE_MASK) ≠ 0
            ∨ usage &&& B.GRALLOC_USAGE_HW_CAMERA_MASK ≠ 0
            ∨ usage &&& B.GRALLOC_USAGE_HW_VIDEO_ENCODER ≠ 0
        · have hc' : usage &&& B.GRALLOC_USAGE_SW_READ_MASK ≠ 0
              ∨ usage &&& B.GRALLOC_USAGE_SW_WRITE_MASK ≠ 0
              ∨ usage &&& B.GRALLOC_USAGE_HW_CAMERA_MASK ≠ 0
              ∨ usage &&& B.GRALLOC_USAGE_HW_VIDEO_ENCODER ≠ 0 := by
            rw [hcond] at hc; tauto
          rw [if_pos hc, if_pos hc']
          split_ifs <;> simp [hb]
        · have hc' : ¬ (usage &&& B.GRALLOC_USAGE_SW_READ_MASK ≠ 0
              ∨ usage &&& B.GRALLOC_USAGE_SW_WRITE_MASK ≠ 0
              ∨ usage &&& B.GRALLOC_USAGE_HW_CAMERA_MASK ≠ 0
              ∨ usage &&& B.GRALLOC_USAGE_HW_VIDEO_ENCODER ≠ 0) := by
            rw [hcond] at hc; tauto
          rw [if_neg hc, if_neg hc']

/-- Instance of the amended C6 statement: a null handle. -/
theorem gralloc_lock_invalid_or_unmapped_witness :
    (gralloc_lock armBuild none 0x3 0 0 0 0).ret = -EINVAL
    ∧ (gralloc_lock armBuild none 0x3 0 0 0 0).stored = none := by
  have hnull : private_handle_t.validate none < 0 := by decide
  have h := gralloc_lock_invalid_or_unmapped armBuild none 0x3 0 0 0 0 (Or.inl hnull)
  rw [if_pos hnull] at h
  exact ⟨h.1, by rw [h.2.2.1, if_pos hnull]⟩

/-! ## `gralloc_lock_ycbcr` -/

/-- C1: on a valid descriptor in one of the two semi-planar 4:2:0 formats, with
non-negative width `W` and height `H` whose product fits `size_t`, and a usage
that passes the usage check, `gralloc_lock_ycbcr` returns 0 and fills the
output with `y = base + 0`, `cr = base + W*H`, `cb = base + (W*H + 1)`
(pointer additions, modulo `2 ^ ptrBits`), `ystride = cstride = W` and
`chroma_step = 2`; the reserved words are zeroed. -/
theorem gralloc_lock_ycbcr_layout (B : Build) (hnd : private_handle_t) (usage : Nat)
    (l t w h : Int) (out : android_ycbcr)
    (hvalid : private_handle_t.validate (some hnd) = 0)
    (hfmt : hnd.format = B.HAL_PIXEL_FORMAT_YCrCb_420_SP
      ∨ hnd.format = B.HAL_PIXEL_FORMAT_YCbCr_420_888)
    (hW : 0 ≤ hnd.width) (hH : 0 ≤ hnd.height)
    (hWfit : hnd.width < 2 ^ B.ptrBits)
    (hov : hnd.width * hnd.height < 2 ^ B.ptrBits)
    (hreq : usage &&& B.GRALLOC_USAGE_HW_CAMERA_WRITE ≠ 0
      ∨ usage &&& B.GRALLOC_USAGE_SW_READ_MASK ≠ 0)
    (hallowed : usage &&& B.GRALLOC_USAGE_SW_READ_MASK ≠ 0
      → hnd.usage &&& B.GRALLOC_USAGE_SW_READ_MASK ≠ 0) :
    gralloc_lock_ycbcr B true (some hnd) usage l t w h (some out) =
      { ret := 0,
        ycbcr := some
          { y := (hnd.base + 0) % 2 ^ B.ptrBits,
            cb := (hnd.base + ((hnd.width * hnd.height).toNat + 1)) % 2 ^ B.ptrBits,
            cr := (hnd.base + (hnd.width * hnd.height).toNat) % 2 ^ B.ptrBits,
            ystride := hnd.width.toNat,
            cstride := hnd.width.toNat,
            chroma_step := 2,
            reserved := out.reserved.map (fun _ => 0) } } := by
  have hlt : ¬ private_handle_t.validate (some hnd) < 0 := by rw [hvalid]; decide
  have hw' := toSize_of_nonneg B hnd.width hW hWfit
  have hlt2 : (hnd.width * hnd.height).toNat < 2 ^ B.ptrBits := by
    have : ((hnd.width * hnd.height).toNat : Int) < ((2 ^ B.ptrBits : Nat) : Int) := by
      rw [Int.toNat_of_nonneg (mul_nonneg hW hH)]
      push_cast
      exact hov
    exact_mod_cast this
  have hmul : (hnd.width.toNat * toSize B hnd.height) % 2 ^ B.ptrBits
      = (hnd.width * hnd.height).toNat := by
    by_cases hW0 : hnd.width = 0
    · rw [hW0]
      simp
    · have hW1 : 1 ≤ hnd.width := by omega
      have hHfit : hnd.height < 2 ^ B.ptrBits := by nlinarith
      rw [toSize_of_nonneg B hnd.height hH hHfit, Nat.mod_eq_of_lt]
      · obtain ⟨a, ha⟩ := Int.eq_ofNat_of_zero_le hW
        obtain ⟨b, hb⟩ := Int.eq_ofNat_of_zero_le hH
        rw [ha, hb, ← Int.ofNat_mul]
        rfl
      · obtain ⟨a, ha⟩ := Int.eq_ofNat_of_zero_le hW
        obtain ⟨b, hb⟩ := Int.eq_ofNat_of_zero_le hH
        rw [ha, hb, ← Int.ofNat_mul] at hlt2
        rw [ha, hb]
        exact hlt2
  have hchk : ((!decide (usage &&& B.GRALLOC_USAGE_HW_CAMERA_WRITE ≠ 0)
        && !decide (0 ≠ usage &&& B.GRALLOC_USAGE_SW_READ_MASK))
      || (decide (0 ≠ usage &&& B.GRALLOC_USAGE_SW_READ_MASK)
        && !decide (0 ≠ hnd.usage &&& B.GRALLOC_USAGE_SW_READ_MASK))) = false := by
    by_cases h1 : usage &&& B.GRALLOC_USAGE_SW_READ_MASK = 0
    · have h2 : usage &&& B.GRALLOC_USAGE_HW_CAMERA_WRITE ≠ 0 := by tauto
      simp [h1, h2]
    · have h2 := hallowed h1
      simp [h1, h2, Ne.symm h1, Ne.symm h2]
  unfold gralloc_lock_ycbcr
  simp only [Bool.not_true, Bool.false_or, decide_eq_true_eq, if_neg hlt, hchk,
    Bool.false_eq_true, if_false, if_pos hfmt, hw', hmul]
  simp only [ptrAdd, Nat.add_mod_mod]

/-- Instance of the C1 layout: 640x480 gives the offsets 0,
307200 (cr) and 307201 (cb), stride 640 and chroma step 2. -/
theorem gralloc_lock_ycbcr_layout_witness :
    gralloc_lock_ycbcr armBuild true (some nv21Handle) 0x3 0 0 640 480 (some staleYcbcr) =
      { ret := 0,
        ycbcr := some
          { y := 0x40000000 + 0,
            cb := 0x40000000 + 307201,
            cr := 0x40000000 + 307200,
            ystride := 640,
            cstride := 640,
            chroma_step := 2,
            reserved := [0, 0, 0, 0, 0, 0, 0, 0] } } := by
  rw [gralloc_lock_ycbcr_layout armBuild nv21Handle 0x3 0 0 640 480 staleYcbcr
    (by decide) (by decide) (by decide) (by decide) (by decide) (by decide) (by decide)
    (by decide)]
  decide

/-- C8, counterexample: a request that combines camera-write (0x20000) with a
software read (0x3) on a supported format, where the descriptor's usage has no
software-read bit, is rejected with `-EINVAL` and the output is untouched. -/
theorem gralloc_lock_ycbcr_camera_write_with_read_rejected :
    private_handle_t.validate (some cameraOnlyHandle) = 0
    ∧ cameraOnlyHandle.format = armBuild.HAL_PIXEL_FORMAT_YCrCb_420_SP
    ∧ 0x20003 &&& armBuild.GRALLOC_USAGE_HW_CAMERA_WRITE ≠ 0
    ∧ 0x20003 &&& armBuild.GRALLOC_USAGE_SW_READ_MASK ≠ 0
    ∧ cameraOnlyHandle.usage &&& armBuild.GRALLOC_USAGE_SW_READ_MASK = 0
    ∧ gralloc_lock_ycbcr armBuild true (some cameraOnlyHandle) 0x20003 0 0 640 480
        (some staleYcbcr) = { ret := -EINVAL, ycbcr := some staleYcbcr } := by
  decide

/-- C8, amended: with a non-null output struct and a valid handle,
`gralloc_lock_ycbcr` returns `-EINVAL` and leaves the output untouched when the
request has neither a camera-write nor a software-read bit, or has a
software-read bit that the descriptor's usage does not allow (also when
combined with camera-write), or the format is not one of the two semi-planar
4:2:0 formats; and with a non-null module it returns 0 for every request on a
supported format that has a camera-write or software-read bit and whose
software read, if any, the descriptor allows. -/
theorem gralloc_lock_ycbcr_accepts_iff (B : Build) (module : Bool) (hnd : private_handle_t)
    (usage : Nat) (l t w h : Int) (out : android_ycbcr)
    (hvalid : private_handle_t.validate (some hnd) = 0) :
    (((usage &&& B.GRALLOC_USAGE_HW_CAMERA_WRITE = 0
          ∧ usage &&& B.GRALLOC_USAGE_SW_READ_MASK = 0)
        ∨ (usage &&& B.GRALLOC_USAGE_SW_READ_MASK ≠ 0
          ∧ hnd.usage &&& B.GRALLOC_USAGE_SW_READ_MASK = 0)
        ∨ ¬ (hnd.format = B.HAL_PIXEL_FORMAT_YCrCb_420_SP
          ∨ hnd.format = B.HAL_PIXEL_FORMAT_YCbCr_420_888))
      → gralloc_lock_ycbcr B module (some hnd) usage l t w h (some out)
          = { ret := -EINVAL, ycbcr := some out })
    ∧ (module = true
      → (usage &&& B.GRALLOC_USAGE_HW_CAMERA_WRITE ≠ 0
          ∨ usage &&& B.GRALLOC_USAGE_SW_READ_MASK ≠ 0)
      → (usage &&& B.GRALLOC_USAGE_SW_READ_MASK ≠ 0
          → hnd.usage &&& B.GRALLOC_USAGE_SW_READ_MASK ≠ 0)
      → (hnd.format = B.HAL_PIXEL_FORMAT_YCrCb_420_SP
          ∨ hnd.format = B.HAL_PIXEL_FORMAT_YCbCr_420_888)
      → (gralloc_lock_ycbcr B module (some hnd) usage l t w h (some out)).ret = 0) := by
  have hlt : ¬ private_handle_t.validate (some hnd) < 0 := by rw [hvalid]; decide
  constructor
  · intro hbad
    unfold gralloc_lock_ycbcr
    simp only [decide_eq_true_eq]
    split_ifs with h1 h2 h3
    · rfl
    · rfl
    · exfalso
      simp only [Bool.or_eq_true, Bool.and_eq_true, Bool.not_eq_true', decide_eq_false_iff_not,
        decide_eq_true_eq, not_or, not_and, Decidable.not_not] at h2
      rcases hbad with ⟨a, b⟩ | ⟨a, b⟩ | c
      · exact h2.1 (by simpa using a) (by simpa using b.symm)
      · exact absurd (h2.2 (Ne.symm a)) (by simpa using b.symm ▸ rfl)
      · exact c h3
    · rfl
  · intro hm hreq hallowed hfmt
    subst hm
    have hchk : ((!decide (usage &&& B.GRALLOC_USAGE_HW_CAMERA_WRITE ≠ 0)
          && !decide (0 ≠ usage &&& B.GRALLOC_USAGE_SW_READ_MASK))
        || (decide (0 ≠ usage &&& B.GRALLOC_USAGE_SW_READ_MASK)
          && !decide (0 ≠ hnd.usage &&& B.GRALLOC_USAGE_SW_READ_MASK))) = false := by
      by_cases h1 : usage &&& B.GRALLOC_USAGE_SW_READ_MASK = 0
      · have h2 : usage &&& B.GRALLOC_USAGE_HW_CAMERA_WRITE ≠ 0 := by tauto
        simp [h1, h2]
      · have h2 := hallowed h1
        simp [h1, h2, Ne.symm h1, Ne.symm h2]
    unfold gralloc_lock_ycbcr
    simp only [Bool.not_true, Bool.false_or, decide_eq_true_eq, if_neg hlt, hchk,
      Bool.false_eq_true, if_false, if_pos hfmt]

/-- Instance of the amended C8 statement: a software read that the
descriptor does not allow is rejected, and camera-write together with an
allowed software read is accepted. -/
theorem gralloc_lock_ycbcr_accepts_iff_witness :
    gralloc_lock_ycbcr armBuild true (some cameraOnlyHandle) 0x3 0 0 640 480 (some staleYcbcr)
        = { ret := -EINVAL, ycbcr := some staleYcbcr }
    ∧ (gralloc_lock_ycbcr armBuild true (some nv21Handle) 0x20003 0 0 640 480
        (some staleYcbcr)).ret = 0 :=
  ⟨(gralloc_lock_ycbcr_accepts_iff armBuild true cameraOnlyHandle 0x3 0 0 640 480 staleYcbcr
      (by decide)).1 (Or.inr (Or.inl (by decide))),
   (gralloc_lock_ycbcr_accepts_iff armBuild true nv21Handle 0x20003 0 0 640 480 staleYcbcr
      (by decide)).2 rfl (by decide) (by decide) (by decide)⟩

/-- Instance of the C5 statement: a software-read lock on the mapped
descriptor stores its base pointer. -/
theorem gralloc_lock_stores_iff_witness :
    (gralloc_lock armBuild (some nv21Handle) 0x3 0 0 640 480).stored = some 0x40000000 :=
  (gralloc_lock_stores_iff armBuild nv21Handle 0x3 0 0 640 480 (by decide)).2.2.1 (by decide)

/-! ## `gralloc_unregister_buffer`: the owning-process check -/

/-- C2, counterexample: called from process 200 on descriptors recorded as
owned by process 100, `gralloc_unregister_buffer` returns 0 (success) for an
ION descriptor, and for a framebuffer-flagged descriptor it unmaps the primary
framebuffer, resets the mapper and keeps the mutex. -/
theorem gralloc_unregister_buffer_foreign_pid :
    nv21Handle.pid = 100 ∧ fbHandle.pid = 100
    ∧ (gralloc_unregister_buffer armBuild { okEnv with getpid := 200 } fbMappedWorld
        (some nv21Handle)).out = .returned 0
    ∧ (gralloc_unregister_buffer armBuild { okEnv with getpid := 200 } fbMappedWorld
        (some fbHandle)).out = .returned 0
    ∧ (gralloc_unregister_buffer armBuild { okEnv with getpid := 200 } fbMappedWorld
        (some fbHandle)).world.module.fb_primary
        = { framebuffer := none, bufferSize := 4096, numBuffers := 0, bufferMask := 0 }
    ∧ (gralloc_unregister_buffer armBuild { okEnv with getpid := 200 } fbMappedWorld
        (some fbHandle)).world.trace = [.munmap 0x50000000 12288, .close 9]
    ∧ (gralloc_unregister_buffer armBuild { okEnv with getpid := 200 } fbMappedWorld
        (some fbHandle)).world.s_map_lock = true := by
  decide

/-- C2, amended: for a valid descriptor that is not framebuffer-flagged,
`gralloc_unregister_buffer` called from a process whose id differs from the
recorded owning-process id changes neither the descriptor nor the process-wide
state (it does not take the mutex and makes no external call) and returns 0. -/
theorem gralloc_unregister_buffer_pid_mismatch (B : Build) (E : Env) (w : World)
    (hnd : private_handle_t)
    (hvalid : private_handle_t.validate (some hnd) = 0)
    (hnofb : hnd.flags &&& B.PRIV_FLAGS_FRAMEBUFFER = 0)
    (hpid : hnd.pid ≠ E.getpid) :
    gralloc_unregister_buffer B E w (some hnd)
      = { out := .returned 0, world := w, handle := some hnd } := by
  have hlt : ¬ private_handle_t.validate (some hnd) < 0 := by rw [hvalid]; decide
  unfold gralloc_unregister_buffer
  rw [if_neg hlt]
  simp only [ne_eq, hnofb, not_true_eq_false, if_false, if_neg hpid]

/-- Instance of the amended C2 statement: an ION descriptor owned by process
100, unregistered from process 200. -/
theorem gralloc_unregister_buffer_pid_mismatch_witness :
    gralloc_unregister_buffer armBuild { okEnv with getpid := 200 } fbMappedWorld
        (some nv21Handle)
      = { out := .returned 0, world := fbMappedWorld, handle := some nv21Handle } :=
  gralloc_unregister_buffer_pid_mismatch armBuild { okEnv with getpid := 200 } fbMappedWorld
    nv21Handle (by decide) (by decide) (by decide)

/-! ## `gralloc_register_buffer`: the framebuffer branch -/

/-- With a shared descriptor already in the target mapper, the framebuffer
branch goes straight to `cleanup`. -/
theorem register_framebuffer_live (B : Build) (E : Env) (w : World) (hnd : private_handle_t)
    (retval : Int)
    (hne : (w.mapper (decide (hnd.usage &&& B.GRALLOC_USAGE_EXTERNAL_DISP ≠ 0))).framebuffer
      ≠ none) :
    register_framebuffer B E w hnd retval
      = cleanup w hnd (if E.hw_get_module = 0 then retval else -E.errno) := by
  obtain ⟨fb, hlive⟩ := Option.ne_none_iff_exists'.mp hne
  unfold register_framebuffer
  by_cases hm : E.hw_get_module = 0
  · simp only [hm, if_true, hlive]
  · simp only [hm, if_false]

/-- C4: for a valid framebuffer-flagged descriptor whose target output
(external when the external-display usage bit is set, primary otherwise)
already has a shared descriptor, a call that acquires the mutex returns a
non-zero value (`-EINVAL` when the module lookup succeeds) and leaves the
module, hence both framebuffer mappers, unchanged.  A failed module lookup is
taken to leave `errno` non-zero. -/
theorem gralloc_register_buffer_framebuffer_again (B : Build) (E : Env) (w : World)
    (hnd : private_handle_t)
    (hvalid : private_handle_t.validate (some hnd) = 0)
    (hfb : hnd.flags &&& B.PRIV_FLAGS_FRAMEBUFFER ≠ 0)
    (hfree : w.s_map_lock = false)
    (hlive : (w.mapper (decide (hnd.usage &&& B.GRALLOC_USAGE_EXTERNAL_DISP ≠ 0))).framebuffer
      ≠ none)
    (herrno : E.hw_get_module ≠ 0 → E.errno ≠ 0) :
    (gralloc_register_buffer B E w (some hnd)).world.module = w.module
    ∧ ∃ rv, (gralloc_register_buffer B E w (some hnd)).out = .returned rv ∧ rv ≠ 0
        ∧ (E.hw_get_module = 0 → rv = -EINVAL) := by
  have hlt : ¬ private_handle_t.validate (some hnd) < 0 := by rw [hvalid]; decide
  have hrv : (if E.hw_get_module = 0 then -EINVAL else -E.errno) ≠ 0
      ∧ (E.hw_get_module = 0 → (if E.hw_get_module = 0 then -EINVAL else -E.errno) = -EINVAL) := by
    by_cases hm : E.hw_get_module = 0
    · simp [hm, EINVAL]
    · simp [hm, herrno hm]
  unfold gralloc_register_buffer
  rw [if_neg hlt]
  simp only [hfree, Bool.false_eq_true, if_false, register_dispatch, hfb, ne_eq,
    not_false_eq_true, if_true]
  split_ifs with h1 h2
  · exact ⟨rfl, -EINVAL, rfl, by decide, fun _ => rfl⟩
  · rw [register_framebuffer_live B E]
    · exact ⟨rfl, _, rfl, hrv.1, hrv.2⟩
    · exact hlive
  · rw [register_framebuffer_live B E]
    · exact ⟨rfl, _, rfl, hrv.1, hrv.2⟩
    · exact hlive

/-- Instance of the C4 statement: a second
registration on the mapped primary output. -/
theorem gralloc_register_buffer_framebuffer_again_witness :
    (gralloc_register_buffer armBuild okEnv fbMappedWorld (some fbHandle)).world.module
        = fbMappedWorld.module
    ∧ ∃ rv, (gralloc_register_buffer armBuild okEnv fbMappedWorld (some fbHandle)).out
          = .returned rv ∧ rv ≠ 0 ∧ (okEnv.hw_get_module = 0 → rv = -EINVAL) :=
  gralloc_register_buffer_framebuffer_again armBuild okEnv fbMappedWorld fbHandle
    (by decide) (by decide) (by decide) (by decide) (by decide)

/-- The exits of the framebuffer branch: it never touches the descriptor; it
leaves through `cleanup` (one unlock), except when a fresh mapping is
attempted and the frame size is zero or `mmap` fails, where the mutex is left
as it was. -/
theorem register_framebuffer_cases (B : Build) (E : Env) (w : World) (hnd : private_handle_t)
    (retval : Int) :
    (register_framebuffer B E w hnd retval).handle = some hnd
    ∧ (((∃ rv, (register_framebuffer B E w hnd retval).out = .returned rv)
        ∧ (register_framebuffer B E w hnd retval).world.s_map_lock = false
        ∧ (register_framebuffer B E w hnd retval).world.acquired = w.acquired
        ∧ (register_framebuffer B E w hnd retval).world.released = w.released + 1)
      ∨ (E.hw_get_module = 0
        ∧ (w.mapper (decide (hnd.usage &&& B.GRALLOC_USAGE_EXTERNAL_DISP ≠ 0))).framebuffer
            = none
        ∧ (hnd.offset = 0 ∨ E.mmap = none)
        ∧ ((register_framebuffer B E w hnd retval).out = .fault
          ∨ (register_framebuffer B E w hnd retval).out = .returned (-E.errno))
        ∧ (register_framebuffer B E w hnd retval).world.s_map_lock = w.s_map_lock
        ∧ (register_framebuffer B E w hnd retval).world.acquired = w.acquired
        ∧ (register_framebuffer B E w hnd retval).world.released = w.released)) := by
  by_cases hm : E.hw_get_module = 0
  · cases hfb : (w.mapper (decide (hnd.usage &&& B.GRALLOC_USAGE_EXTERNAL_DISP ≠ 0))).framebuffer with
    | some fb =>
      rw [register_framebuffer_live B E w hnd retval (by rw [hfb]; simp)]
      exact ⟨rfl, Or.inl ⟨⟨_, rfl⟩, rfl, rfl, rfl⟩⟩
    | none =>
      unfold register_framebuffer
      simp only [hm, if_true, hfb]
      by_cases ho : hnd.offset = 0
      · simp only [ho, if_true]
        refine ⟨?_, Or.inr ⟨?_, ?_, ?_, ?_, ?_, ?_, ?_⟩⟩
        all_goals first
          | rfl | trivial | exact Or.inl trivial | exact Or.inl rfl
          | (cases decide (hnd.usage &&& B.GRALLOC_USAGE_EXTERNAL_DISP ≠ 0) <;> rfl)
      · simp only [ho, if_false]
        cases hmm : E.mmap with
        | none =>
          refine ⟨?_, Or.inr ⟨?_, ?_, ?_, ?_, ?_, ?_, ?_⟩⟩
          all_goals first
            | rfl | trivial | exact Or.inr trivial | exact Or.inr rfl
            | (cases decide (hnd.usage &&& B.GRALLOC_USAGE_EXTERNAL_DISP ≠ 0) <;> rfl)
        | some vaddr =>
          refine ⟨rfl, Or.inl ⟨⟨_, rfl⟩, ?_, ?_, ?_⟩⟩
          all_goals simp only [cleanup, World.unlock, World.setMapper, World.emit]
          all_goals split_ifs <;> rfl
  · unfold register_framebuffer
    simp only [hm, if_false]
    exact ⟨rfl, Or.inl ⟨⟨_, rfl⟩, rfl, rfl, rfl⟩⟩

theorem cleanup_unlockedReturn (w : World) (hnd : private_handle_t) (retval : Int) :
    (cleanup w hnd retval).unlockedReturn w hnd :=
  ⟨_, _, rfl, rfl, rfl, rfl, rfl, rfl, rfl, rfl⟩

theorem register_ump_unlockedReturn (B : Build) (E : Env) (w : World) (hnd : private_handle_t)
    (retval : Int) : (register_ump B E w hnd retval).unlockedReturn w hnd := by
  unfold register_ump
  dsimp only
  split_ifs <;> exact ⟨_, _, rfl, rfl, rfl, rfl, rfl, rfl, rfl, rfl⟩

theorem register_ion_unlockedReturn (B : Build) (E : Env) (w : World) (hnd : private_handle_t)
    (retval : Int) : (register_ion B E w hnd retval).unlockedReturn w hnd := by
  unfold register_ion
  by_cases hd : B.GRALLOC_ARM_DMA_BUF_MODULE = true
  · by_cases hm : E.hw_get_module = 0
    · simp only [hd, hm, if_true]
      split_ifs
      · exact ⟨_, _, rfl, rfl, rfl, rfl, rfl, rfl, rfl, rfl⟩
      · cases E.mmap <;> exact ⟨_, _, rfl, rfl, rfl, rfl, rfl, rfl, rfl, rfl⟩
      · exact ⟨_, _, rfl, rfl, rfl, rfl, rfl, rfl, rfl, rfl⟩
      · cases E.mmap <;> exact ⟨_, _, rfl, rfl, rfl, rfl, rfl, rfl, rfl, rfl⟩
    · simp only [hd, hm, if_true, if_false]
      exact ⟨_, _, rfl, rfl, rfl, rfl, rfl, rfl, rfl, rfl⟩
  · simp only [hd, if_false]
    exact ⟨_, _, rfl, rfl, rfl, rfl, rfl, rfl, rfl, rfl⟩

/-- The exits of the backend dispatch. -/
theorem register_dispatch_cases (B : Build) (E : Env) (w : World) (hnd : private_handle_t)
    (retval : Int) (r : Res) (hr : r = register_dispatch B E w hnd retval) :
    (r.unlockedReturn w hnd ∧ (hnd.flags &&& B.PRIV_FLAGS_FRAMEBUFFER ≠ 0 → r.handle = some hnd))
    ∨ (hnd.flags &&& B.PRIV_FLAGS_FRAMEBUFFER ≠ 0 ∧ r.handle = some hnd
      ∧ E.hw_get_module = 0
      ∧ (w.mapper (decide (hnd.usage &&& B.GRALLOC_USAGE_EXTERNAL_DISP ≠ 0))).framebuffer = none
      ∧ (hnd.offset = 0 ∨ E.mmap = none)
      ∧ (r.out = .fault ∨ r.out = .returned (-E.errno))
      ∧ r.world.s_map_lock = w.s_map_lock ∧ r.world.acquired = w.acquired
      ∧ r.world.released = w.released) := by
  subst hr
  unfold register_dispatch
  by_cases hfb : hnd.flags &&& B.PRIV_FLAGS_FRAMEBUFFER ≠ 0
  · rw [if_pos hfb]
    obtain ⟨hh, hc | hc⟩ := register_framebuffer_cases B E w hnd retval
    · obtain ⟨⟨rv, hrv⟩, h1, h2, h3⟩ := hc
      exact Or.inl ⟨⟨hnd, rv, hh, hrv, rfl, rfl, rfl, h1, h2, h3⟩, fun _ => hh⟩
    · obtain ⟨h1, h2, h3, h4, h5, h6, h7⟩ := hc
      exact Or.inr ⟨hfb, hh, h1, h2, h3, h4, h5, h6, h7⟩
  · rw [if_neg hfb]
    refine Or.inl ⟨?_, fun hc => absurd hc hfb⟩
    split_ifs
    · exact register_ump_unlockedReturn B E w hnd retval
    · exact register_ion_unlockedReturn B E w hnd retval
    · exact cleanup_unlockedReturn w hnd retval

/-- The exits of `gralloc_register_buffer` on a valid descriptor when the
mutex is free: either a return after exactly one lock and one unlock, where
`base` and `lockState` can only have changed on a descriptor that is not
framebuffer-flagged and now carries the caller's pid; or one of the two exits
of a fresh framebuffer mapping (zero frame size, `mmap` failure) that leave the
mutex held. -/
theorem gralloc_register_buffer_cases (B : Build) (E : Env) (w : World)
    (hnd : private_handle_t) (r : Res)
    (hvalid : private_handle_t.validate (some hnd) = 0)
    (hfree : w.s_map_lock = false)
    (hr : r = gralloc_register_buffer B E w (some hnd)) :
    ∃ h', r.handle = some h' ∧ h'.tagOk = hnd.tagOk ∧ h'.flags = hnd.flags
      ∧ (((∃ rv, r.out = .returned rv) ∧ r.world.s_map_lock = false
          ∧ r.world.acquired = w.acquired + 1 ∧ r.world.released = w.released + 1
          ∧ ((h'.base = hnd.base ∧ h'.lockState = hnd.lockState)
            ∨ (hnd.flags &&& B.PRIV_FLAGS_FRAMEBUFFER = 0 ∧ h'.pid = E.getpid)))
        ∨ (hnd.flags &&& B.PRIV_FLAGS_FRAMEBUFFER ≠ 0 ∧ E.hw_get_module = 0
          ∧ (w.mapper (decide (hnd.usage &&& B.GRALLOC_USAGE_EXTERNAL_DISP ≠ 0))).framebuffer
              = none
          ∧ (hnd.offset = 0 ∨ E.mmap = none)
          ∧ (r.out = .fault ∨ r.out = .returned (-E.errno))
          ∧ r.world.s_map_lock = true ∧ r.world.acquired = w.acquired + 1
          ∧ r.world.released = w.released
          ∧ h'.base = hnd.base ∧ h'.lockState = hnd.lockState)) := by
  have hlt : ¬ private_handle_t.validate (some hnd) < 0 := by rw [hvalid]; decide
  subst hr
  unfold gralloc_register_buffer
  rw [if_neg hlt]
  simp only [hfree, Bool.false_eq_true, if_false]
  by_cases hfail : (B.GRALLOC_ARM_UMP_MODULE && !w.lock.s_ump_is_open && !E.ump_open_ok) = true
  · rw [if_pos hfail]
    exact ⟨hnd, rfl, rfl, rfl, Or.inl ⟨⟨_, rfl⟩, rfl, rfl, rfl, Or.inl ⟨rfl, rfl⟩⟩⟩
  · rw [if_neg hfail]
    generalize hw' : (if (B.GRALLOC_ARM_UMP_MODULE && !w.lock.s_ump_is_open) = true then
        { (w.lock.emit (.ump_open true)) with s_ump_is_open := true } else w.lock) = w'
    have hw1 : w'.s_map_lock = true ∧ w'.acquired = w.acquired + 1 ∧ w'.released = w.released
        ∧ w'.module = w.module := by
      rw [← hw']; split_ifs <;> exact ⟨rfl, rfl, rfl, rfl⟩
    obtain ⟨hl, ha, hrl, hmod⟩ := hw1
    have hmap : ∀ e, w'.mapper e = w.mapper e := by
      intro e; unfold World.mapper; rw [hmod]
    rcases register_dispatch_cases B E w' { hnd with pid := E.getpid } (-EINVAL) _ rfl with
      ⟨⟨h', rv, e1, e2, e3, e4, e5, e6, e7, e8⟩, hfbsame⟩ | ⟨c1, c2, c3, c4, c5, c6, c7, c8, c9⟩
    · refine ⟨h', e1, e3, e4, Or.inl ⟨⟨rv, e2⟩, e6, by rw [e7, ha], by rw [e8, hrl], ?_⟩⟩
      by_cases hfb : hnd.flags &&& B.PRIV_FLAGS_FRAMEBUFFER = 0
      · exact Or.inr ⟨hfb, e5⟩
      · have := hfbsame hfb
        rw [e1] at this
        injection this with this
        subst this
        exact Or.inl ⟨rfl, rfl⟩
    · refine ⟨_, c2, rfl, rfl, Or.inr ⟨c1, c3, ?_, c5, c6, by rw [c7, hl], by rw [c8, ha],
        by rw [c9, hrl], rfl, rfl⟩⟩
      rw [← hmap]; exact c4

/-! ## `register` followed by `unregister` -/

/-- `gralloc_unregister_buffer` leaves `base` and `lockState` of a valid
descriptor as they were or sets them to zero. -/
theorem gralloc_unregister_buffer_fields (B : Build) (E : Env) (w : World)
    (hnd : private_handle_t) (hvalid : private_handle_t.validate (some hnd) = 0) :
    ∃ h', (gralloc_unregister_buffer B E w (some hnd)).handle = some h'
      ∧ (h'.base = hnd.base ∨ h'.base = 0)
      ∧ (h'.lockState = hnd.lockState ∨ h'.lockState = 0) := by
  have hlt : ¬ private_handle_t.validate (some hnd) < 0 := by rw [hvalid]; decide
  unfold gralloc_unregister_buffer
  rw [if_neg hlt]
  dsimp only
  split_ifs
  · exact ⟨_, rfl, Or.inl rfl, Or.inl rfl⟩
  · cases (w.lock.mapper
      (decide (hnd.usage &&& B.GRALLOC_USAGE_EXTERNAL_DISP ≠ 0))).framebuffer <;>
      exact ⟨_, rfl, Or.inl rfl, Or.inl rfl⟩
  · exact ⟨_, rfl, Or.inl rfl, Or.inl rfl⟩
  · exact ⟨_, rfl, Or.inl rfl, Or.inl rfl⟩
  · exact ⟨_, rfl, Or.inr rfl, Or.inr rfl⟩
  · exact ⟨_, rfl, Or.inl rfl, Or.inl rfl⟩

/-- In the owning process and with the mutex free, `gralloc_unregister_buffer`
on a valid descriptor that is not framebuffer-flagged returns 0 with `base`
and `lockState` cleared. -/
theorem gralloc_unregister_buffer_clears (B : Build) (E : Env) (w : World)
    (hnd : private_handle_t) (hvalid : private_handle_t.validate (some hnd) = 0)
    (hnofb : hnd.flags &&& B.PRIV_FLAGS_FRAMEBUFFER = 0) (hpid : hnd.pid = E.getpid)
    (hfree : w.s_map_lock = false) :
    ∃ h', (gralloc_unregister_buffer B E w (some hnd)).handle = some h'
      ∧ h'.base = 0 ∧ h'.lockState = 0 := by
  have hlt : ¬ private_handle_t.validate (some hnd) < 0 := by rw [hvalid]; decide
  unfold gralloc_unregister_buffer
  rw [if_neg hlt]
  simp only [ne_eq, hnofb, not_true_eq_false, if_false, hpid, if_true, hfree, Bool.false_eq_true]
  exact ⟨_, rfl, rfl, rfl⟩

/-- With the mutex free, `gralloc_unregister_buffer` on a valid descriptor
returns 0. -/
theorem gralloc_unregister_buffer_returns (B : Build) (E : Env) (w : World)
    (hnd : private_handle_t) (hvalid : private_handle_t.validate (some hnd) = 0)
    (hfree : w.s_map_lock = false) :
    (gralloc_unregister_buffer B E w (some hnd)).out = .returned 0 := by
  have hlt : ¬ private_handle_t.validate (some hnd) < 0 := by rw [hvalid]; decide
  unfold gralloc_unregister_buffer
  rw [if_neg hlt]
  simp only [hfree, Bool.false_eq_true, if_false]
  split_ifs
  · cases (w.lock.mapper
      (decide (hnd.usage &&& B.GRALLOC_USAGE_EXTERNAL_DISP ≠ 0))).framebuffer <;> rfl
  · rfl
  · rfl
  · rfl

/-- C3: for a valid descriptor whose base pointer is null and whose lock-state
is zero, `gralloc_register_buffer` followed by `gralloc_unregister_buffer` in
the same process leaves the base pointer null and the lock-state zero,
whatever the external calls answer.  When the mutex is free at the start, both
calls return, `unregister` with 0, except when `register` attempts a fresh
framebuffer mapping with frame size zero or a failing `mmap`. -/
theorem register_then_unregister_restores (B : Build) (E₁ E₂ : Env) (w : World)
    (hnd : private_handle_t)
    (hvalid : private_handle_t.validate (some hnd) = 0)
    (hbase : hnd.base = 0) (hlock : hnd.lockState = 0)
    (hpid : E₁.getpid = E₂.getpid) :
    (∃ h', (register_then_unregister B E₁ E₂ w (some hnd)).handle = some h'
      ∧ h'.base = 0 ∧ h'.lockState = 0)
    ∧ (w.s_map_lock = false →
        (register_then_unregister B E₁ E₂ w (some hnd)).out = .returned 0
        ∨ (hnd.flags &&& B.PRIV_FLAGS_FRAMEBUFFER ≠ 0 ∧ E₁.hw_get_module = 0
          ∧ (w.mapper (decide (hnd.usage &&& B.GRALLOC_USAGE_EXTERNAL_DISP ≠ 0))).framebuffer
              = none
          ∧ (hnd.offset = 0 ∨ E₁.mmap = none))) := by
  have hlt : ¬ private_handle_t.validate (some hnd) < 0 := by rw [hvalid]; decide
  by_cases hfree : w.s_map_lock = false
  · obtain ⟨h', e1, etag, eflags, hc⟩ :=
      gralloc_register_buffer_cases B E₁ w hnd _ hvalid hfree rfl
    have hvalid' : private_handle_t.validate (some h') = 0 := by
      rw [validate_some, etag, ← validate_some]; exact hvalid
    rcases hc with ⟨⟨rv, hout⟩, hl, -, -, hfields⟩ | ⟨c1, c2, c3, c4, c5, c6, -, -, c9, c10⟩
    · have hseq : register_then_unregister B E₁ E₂ w (some hnd)
          = gralloc_unregister_buffer B E₂ (gralloc_register_buffer B E₁ w (some hnd)).world
              (some h') := by
        simp only [register_then_unregister, hout, e1]
      rw [hseq]
      refine ⟨?_, fun _ => Or.inl (gralloc_unregister_buffer_returns B E₂ _ h' hvalid' hl)⟩
      rcases hfields with ⟨hb, hs⟩ | ⟨hnofb, hp⟩
      · obtain ⟨h'', e, hb', hs'⟩ := gralloc_unregister_buffer_fields B E₂
          (gralloc_register_buffer B E₁ w (some hnd)).world h' hvalid'
        refine ⟨h'', e, ?_, ?_⟩
        · rcases hb' with hb' | hb'
          · rw [hb', hb, hbase]
          · exact hb'
        · rcases hs' with hs' | hs'
          · rw [hs', hs, hlock]
          · exact hs'
      · exact gralloc_unregister_buffer_clears B E₂ _ h' hvalid' (by rw [eflags]; exact hnofb)
          (by rw [hp, hpid]) hl
    · refine ⟨?_, fun _ => Or.inr ⟨c1, c2, c3, c4⟩⟩
      rcases c5 with hout | hout
      · have hseq : register_then_unregister B E₁ E₂ w (some hnd)
            = gralloc_register_buffer B E₁ w (some hnd) := by
          simp only [register_then_unregister, hout]
        rw [hseq]
        exact ⟨h', e1, by rw [c9, hbase], by rw [c10, hlock]⟩
      · have hseq : register_then_unregister B E₁ E₂ w (some hnd)
            = gralloc_unregister_buffer B E₂ (gralloc_register_buffer B E₁ w (some hnd)).world
                (some h') := by
          simp only [register_then_unregister, hout, e1]
        rw [hseq]
        obtain ⟨h'', e, hb', hs'⟩ := gralloc_unregister_buffer_fields B E₂
          (gralloc_register_buffer B E₁ w (some hnd)).world h' hvalid'
        refine ⟨h'', e, ?_, ?_⟩
        · rcases hb' with hb' | hb'
          · rw [hb', c9, hbase]
          · exact hb'
        · rcases hs' with hs' | hs'
          · rw [hs', c10, hlock]
          · exact hs'
  · have hheld : w.s_map_lock = true := by simpa using hfree
    have hreg : gralloc_register_buffer B E₁ w (some hnd)
        = { out := .blocked, world := w, handle := some hnd } := by
      unfold gralloc_register_buffer
      rw [if_neg hlt]
      simp only [hheld, if_true]
    have hseq : register_then_unregister B E₁ E₂ w (some hnd)
        = { out := .blocked, world := w, handle := some hnd } := by
      simp only [register_then_unregister, hreg]
    rw [hseq]
    exact ⟨⟨hnd, rfl, hbase, hlock⟩, fun hc => absurd hc hfree⟩

/-- Instance of the C3 statement: an ION descriptor is
mapped at 0x40000000 by `register` and cleared again by `unregister`. -/
theorem register_then_unregister_restores_witness :
    ((gralloc_register_buffer armBuild okEnv freshWorld (some unmappedHandle)).handle.map
        (fun d => d.base)) = some 0x40000000
    ∧ ((∃ h', (register_then_unregister armBuild okEnv okEnv freshWorld
          (some unmappedHandle)).handle = some h' ∧ h'.base = 0 ∧ h'.lockState = 0)
      ∧ (freshWorld.s_map_lock = false →
          (register_then_unregister armBuild okEnv okEnv freshWorld
            (some unmappedHandle)).out = .returned 0
          ∨ (unmappedHandle.flags &&& armBuild.PRIV_FLAGS_FRAMEBUFFER ≠ 0
            ∧ okEnv.hw_get_module = 0
            ∧ (freshWorld.mapper (decide (unmappedHandle.usage
                &&& armBuild.GRALLOC_USAGE_EXTERNAL_DISP ≠ 0))).framebuffer = none
            ∧ (unmappedHandle.offset = 0 ∨ okEnv.mmap = none)))) :=
  ⟨by decide,
   register_then_unregister_restores armBuild okEnv okEnv freshWorld unmappedHandle
     (by decide) rfl rfl rfl⟩

/-! ## Defects of the registration paths -/

/-- C7: a first registration of the primary framebuffer (frame size 4096,
module lookup and `mmap` succeeding) stores the shared descriptor, mapped at
the address `mmap` answered, in the mapper and releases the mutex, but the
value returned is `-EINVAL`, not 0. -/
theorem gralloc_register_buffer_framebuffer_fresh_returns_einval :
    private_handle_t.validate (some fbHandle) = 0
    ∧ fbHandle.flags &&& armBuild.PRIV_FLAGS_FRAMEBUFFER ≠ 0
    ∧ fbHandle.offset ≠ 0
    ∧ freshWorld.module.fb_primary.framebuffer = none
    ∧ okEnv.hw_get_module = 0 ∧ okEnv.mmap = some 0x40000000
    ∧ (gralloc_register_buffer armBuild okEnv freshWorld (some fbHandle)).out
        = .returned (-EINVAL)
    ∧ (gralloc_register_buffer armBuild okEnv freshWorld (some fbHandle)).world.module.fb_primary
        = { framebuffer := some { fbShared with base := 0x40000000 }, bufferSize := 4096,
            numBuffers := 3, bufferMask := 0 }
    ∧ (gralloc_register_buffer armBuild okEnv freshWorld (some fbHandle)).world.s_map_lock
        = false := by
  decide

/-- C9: when `mmap` fails in the framebuffer branch (here with `errno` 12), the
call returns `-errno` with the mutex acquired once and never released. -/
theorem gralloc_register_buffer_framebuffer_mmap_failure_keeps_mutex :
    private_handle_t.validate (some fbHandle) = 0
    ∧ freshWorld.s_map_lock = false
    ∧ (gralloc_register_buffer armBuild { okEnv with mmap := none, errno := 12 } freshWorld
        (some fbHandle)).out = .returned (-12)
    ∧ (gralloc_register_buffer armBuild { okEnv with mmap := none, errno := 12 } freshWorld
        (some fbHandle)).world.s_map_lock = true
    ∧ (gralloc_register_buffer armBuild { okEnv with mmap := none, errno := 12 } freshWorld
        (some fbHandle)).world.acquired = 1
    ∧ (gralloc_register_buffer armBuild { okEnv with mmap := none, errno := 12 } freshWorld
        (some fbHandle)).world.released = 0 := by
  decide

/-- The framebuffer branch on an output without a shared descriptor, with a
non-zero frame size and the lookup and `mmap` succeeding: the shared
descriptor, mapped at the address `mmap` answered, is stored in the mapper and
the branch leaves through `cleanup` with `retval` as it was on entry. -/
theorem register_framebuffer_fresh (B : Build) (E : Env) (w : World) (hnd : private_handle_t)
    (retval : Int) (A : Nat)
    (hm : E.hw_get_module = 0)
    (hnone : (w.mapper (decide (hnd.usage &&& B.GRALLOC_USAGE_EXTERNAL_DISP ≠ 0))).framebuffer
      = none)
    (hoff : hnd.offset ≠ 0) (hmmap : E.mmap = some A) :
    (register_framebuffer B E w hnd retval).out = .returned retval
    ∧ ∃ fb, ((register_framebuffer B E w hnd retval).world.mapper
          (decide (hnd.usage &&& B.GRALLOC_USAGE_EXTERNAL_DISP ≠ 0))).framebuffer = some fb
        ∧ fb.base = A ∧ fb.size = hnd.size := by
  unfold register_framebuffer
  simp only [hm, if_true, hnone, hoff, if_false, hmmap]
  refine ⟨rfl, ?_⟩
  cases decide (hnd.usage &&& B.GRALLOC_USAGE_EXTERNAL_DISP ≠ 0) <;>
    cases (B.GRALLOC_ARM_UMP_MODULE && B.IOCTL_GET_FB_UMP_SECURE_ID) <;>
    exact ⟨_, rfl, rfl, rfl⟩

/-- On every first registration of a framebuffer that succeeds in mapping it
(valid framebuffer-flagged descriptor, mutex free, UMP library open or
opening, non-zero frame size, lookup and `mmap` succeeding) the value returned
is `-EINVAL`. -/
theorem gralloc_register_buffer_framebuffer_fresh (B : Build) (E : Env) (w : World)
    (hnd : private_handle_t) (A : Nat)
    (hvalid : private_handle_t.validate (some hnd) = 0)
    (hfb : hnd.flags &&& B.PRIV_FLAGS_FRAMEBUFFER ≠ 0)
    (hfree : w.s_map_lock = false)
    (hump : (B.GRALLOC_ARM_UMP_MODULE && !w.s_ump_is_open && !E.ump_open_ok) = false)
    (hm : E.hw_get_module = 0)
    (hnone : (w.mapper (decide (hnd.usage &&& B.GRALLOC_USAGE_EXTERNAL_DISP ≠ 0))).framebuffer
      = none)
    (hoff : hnd.offset ≠ 0) (hmmap : E.mmap = some A) :
    (gralloc_register_buffer B E w (some hnd)).out = .returned (-EINVAL)
    ∧ ∃ fb, ((gralloc_register_buffer B E w (some hnd)).world.mapper
          (decide (hnd.usage &&& B.GRALLOC_USAGE_EXTERNAL_DISP ≠ 0))).framebuffer = some fb
        ∧ fb.base = A ∧ fb.size = hnd.size := by
  have hlt : ¬ private_handle_t.validate (some hnd) < 0 := by rw [hvalid]; decide
  have hump' : (B.GRALLOC_ARM_UMP_MODULE && !w.lock.s_ump_is_open && !E.ump_open_ok) = false :=
    hump
  unfold gralloc_register_buffer
  rw [if_neg hlt]
  simp only [hfree, Bool.false_eq_true, if_false, hump']
  generalize hw' : (if (B.GRALLOC_ARM_UMP_MODULE && !w.lock.s_ump_is_open) = true then
      { (w.lock.emit (.ump_open true)) with s_ump_is_open := true } else w.lock) = w'
  have hmod : w'.module = w.module := by
    rw [← hw']; split_ifs <;> rfl
  have hnone' : (w'.mapper (decide (hnd.usage &&& B.GRALLOC_USAGE_EXTERNAL_DISP ≠ 0))).framebuffer
      = none := by
    unfold World.mapper; rw [hmod]; exact hnone
  unfold register_dispatch
  rw [if_pos hfb]
  exact register_framebuffer_fresh B E w' { hnd with pid := E.getpid } (-EINVAL) A hm hnone'
    hoff hmmap

/-- A successful registration of an ION descriptor returns 0 with the mutex
released and `base` set to the address `mmap` answered plus the byte offset. -/
theorem gralloc_register_buffer_ion_base (B : Build) (E : Env) (w : World)
    (hnd : private_handle_t) (A : Nat)
    (hvalid : private_handle_t.validate (some hnd) = 0)
    (hfree : w.s_map_lock = false)
    (hump : (B.GRALLOC_ARM_UMP_MODULE && !w.s_ump_is_open && !E.ump_open_ok) = false)
    (hnofb : hnd.flags &&& B.PRIV_FLAGS_FRAMEBUFFER = 0)
    (hnoump : hnd.flags &&& B.PRIV_FLAGS_USES_UMP = 0)
    (hion : hnd.flags &&& B.PRIV_FLAGS_USES_ION ≠ 0)
    (hdma : B.GRALLOC_ARM_DMA_BUF_MODULE = true)
    (hm : E.hw_get_module = 0)
    (hclient : 0 < w.module.ion_client ∨ 0 ≤ E.ion_open)
    (hmmap : E.mmap = some A) :
    (gralloc_register_buffer B E w (some hnd)).out = .returned 0
    ∧ (gralloc_register_buffer B E w (some hnd)).handle
        = some { hnd with pid := E.getpid, base := ptrAddInt B A hnd.offset }
    ∧ (gralloc_register_buffer B E w (some hnd)).world.s_map_lock = false := by
  have hlt : ¬ private_handle_t.validate (some hnd) < 0 := by rw [hvalid]; decide
  have hump' : (B.GRALLOC_ARM_UMP_MODULE && !w.lock.s_ump_is_open && !E.ump_open_ok) = false :=
    hump
  unfold gralloc_register_buffer
  rw [if_neg hlt]
  simp only [hfree, Bool.false_eq_true, if_false, hump']
  generalize hw' : (if (B.GRALLOC_ARM_UMP_MODULE && !w.lock.s_ump_is_open) = true then
      { (w.lock.emit (.ump_open true)) with s_ump_is_open := true } else w.lock) = w'
  have hmod : w'.module = w.module := by
    rw [← hw']; split_ifs <;> rfl
  unfold register_dispatch
  simp only [ne_eq, hnofb, hnoump, hion, not_true_eq_false, not_false_eq_true, if_false, if_true]
  unfold register_ion
  simp only [hdma, hm, if_true, hmod, hmmap]
  have hnofail : ¬ ((decide (w.module.ion_client ≤ 0) &&
      decide ((if decide (w.module.ion_client ≤ 0) = true then
        { (w'.emit (.ion_open E.ion_open)) with
          module := { w.module with ion_client := E.ion_open } }
        else w').module.ion_client < 0)) = true) := by
    by_cases hc : w.module.ion_client ≤ 0
    · have h0 : 0 ≤ E.ion_open := by
        rcases hclient with h | h
        · omega
        · exact h
      simp [hc, h0]
    · simp [hc]
  rw [if_neg hnofail]
  exact ⟨rfl, rfl, rfl⟩

/-- In the owning process, `unregister` of an ION descriptor makes exactly one
external call: `munmap(base, size)` with the descriptor's current `base`. -/
theorem gralloc_unregister_buffer_ion_munmap (B : Build) (E : Env) (w : World)
    (hnd : private_handle_t)
    (hvalid : private_handle_t.validate (some hnd) = 0)
    (hfree : w.s_map_lock = false)
    (hnofb : hnd.flags &&& B.PRIV_FLAGS_FRAMEBUFFER = 0)
    (hnoump : hnd.flags &&& B.PRIV_FLAGS_USES_UMP = 0)
    (hion : hnd.flags &&& B.PRIV_FLAGS_USES_ION ≠ 0)
    (hdma : B.GRALLOC_ARM_DMA_BUF_MODULE = true)
    (hpid : hnd.pid = E.getpid) :
    (gralloc_unregister_buffer B E w (some hnd)).world.trace
      = w.trace ++ [.munmap hnd.base (toSize B hnd.size)] := by
  have hlt : ¬ private_handle_t.validate (some hnd) < 0 := by rw [hvalid]; decide
  unfold gralloc_unregister_buffer
  rw [if_neg hlt]
  simp only [ne_eq, hnofb, not_true_eq_false, if_false, hpid, if_true, hfree,
    Bool.false_eq_true, unregister_backend, hnoump, hion, not_false_eq_true, hdma]
  rfl

/-- For every ION descriptor and every byte offset, the `munmap` issued by
`unregister` after a successful `register` in the same process has the address
`A + offset`, where `A` is the address `mmap` answered. -/
theorem register_then_unregister_ion_munmap (B : Build) (E₁ E₂ : Env) (w : World)
    (hnd : private_handle_t) (A : Nat)
    (hvalid : private_handle_t.validate (some hnd) = 0)
    (hfree : w.s_map_lock = false)
    (hump : (B.GRALLOC_ARM_UMP_MODULE && !w.s_ump_is_open && !E₁.ump_open_ok) = false)
    (hnofb : hnd.flags &&& B.PRIV_FLAGS_FRAMEBUFFER = 0)
    (hnoump : hnd.flags &&& B.PRIV_FLAGS_USES_UMP = 0)
    (hion : hnd.flags &&& B.PRIV_FLAGS_USES_ION ≠ 0)
    (hdma : B.GRALLOC_ARM_DMA_BUF_MODULE = true)
    (hm : E₁.hw_get_module = 0)
    (hclient : 0 < w.module.ion_client ∨ 0 ≤ E₁.ion_open)
    (hmmap : E₁.mmap = some A)
    (hpid : E₁.getpid = E₂.getpid) :
    (register_then_unregister B E₁ E₂ w (some hnd)).world.trace
      = (gralloc_register_buffer B E₁ w (some hnd)).world.trace
        ++ [.munmap (ptrAddInt B A hnd.offset) (toSize B hnd.size)] := by
  obtain ⟨hout, hh, hl⟩ := gralloc_register_buffer_ion_base B E₁ w hnd A hvalid hfree hump
    hnofb hnoump hion hdma hm hclient hmmap
  have hseq : register_then_unregister B E₁ E₂ w (some hnd)
      = gralloc_unregister_buffer B E₂ (gralloc_register_buffer B E₁ w (some hnd)).world
          (some { hnd with pid := E₁.getpid, base := ptrAddInt B A hnd.offset }) := by
    simp only [register_then_unregister, hout, hh]
  rw [hseq]
  exact gralloc_unregister_buffer_ion_munmap B E₂ _ _ (by rw [validate_some] at hvalid ⊢; exact hvalid)
    hl hnofb hnoump hion hdma hpid

/-- C10: for an ION descriptor of size 8192 and offset 4096, `register` maps
8192 bytes at 0x40000000 and sets `base` to 0x40001000; the following
`unregister` calls `munmap(0x40001000, 8192)`, not `munmap(0x40000000, 8192)`. -/
theorem register_then_unregister_ion_offset_munmap :
    (gralloc_register_buffer armBuild okEnv freshWorld (some ionOffsetHandle)).out
        = .returned 0
    ∧ ((gralloc_register_buffer armBuild okEnv freshWorld (some ionOffsetHandle)).handle.map
        (fun d => d.base)) = some 0x40001000
    ∧ (register_then_unregister armBuild okEnv okEnv freshWorld (some ionOffsetHandle)).out
        = .returned 0
    ∧ (register_then_unregister armBuild okEnv okEnv freshWorld (some ionOffsetHandle)).world.trace
        = [.ion_open 5, .mmap 8192 7 (some 0x40000000), .munmap 0x40001000 8192]
    ∧ Event.munmap 0x40000000 8192 ∉
        (register_then_unregister armBuild okEnv okEnv freshWorld
          (some ionOffsetHandle)).world.trace := by
  decide

end Gralloc
